import Mathlib

/-!
# Verification of the 9volt cluster engine

Shallow embedding of the cluster engine (`cluster` package): the director
role state machine (`handleState` / `changeState` / `updateState`),
observation normalization (`getState`), member-monitor event handling,
the heartbeat loops, the member-directory initialization sequence, and
the serialization of the director record.

Store RPCs (`dal` client calls) are modelled as oracle parameters: each
embedded function takes the outcome of its store calls as an explicit
argument and returns the list of store operations it issued together with
its result and local effects (director-state flag, `StateChan` publishes).
Wall-clock times and Go `time.Duration` values are embedded as `Int`
nanosecond counts with exact (rational) arithmetic in place of `float64`.
-/

set_option maxHeartbeats 1000000

namespace NineVolt

/-- Wall-clock timestamp / Go `time.Duration`, in nanoseconds. -/
abbrev GoTime := Int

/-- `DirectorJSON` struct: the payload stored at `cluster/director`. -/
structure DirectorJSON where
  MemberID : String
  LastUpdate : GoTime
deriving DecidableEq, Repr

/-- `MemberJSON` struct: the payload stored at `cluster/members/<id>/status`. -/
structure MemberJSON where
  MemberID : String
  Hostname : String
  ListenAddress : String
  LastUpdated : GoTime
  Tags : List String
  Version : String
  SemVer : String
deriving DecidableEq, Repr

/-- The fields of `config.Config` the cluster engine reads, plus the
node-local immutable identity data held on the `Cluster` struct. -/
structure ClusterCfg where
  MemberID : String
  Hostname : String
  ListenAddress : String
  Tags : List String
  Version : String
  SemVer : String
  HeartbeatInterval : GoTime
  HeartbeatTimeout : GoTime
deriving Repr

/-! ## Constants (single Go `const` block, `iota`-numbered) -/

def START : Nat := 0
def STOP : Nat := 1
def CREATE : Nat := 2
def UPDATE : Nat := 3
def NOOP : Nat := 4

def DIRECTOR_KEY : String := "cluster/director"

/-! ## JSON serialization of `DirectorJSON`

`encoding/json` marshalling of the two-field struct, embedded as a
deterministic field-ordered text encoding (struct fields are emitted in
declaration order by `json.Marshal`; the timestamp is embedded as its
nanosecond count).  The parser below is the matching `json.Unmarshal`. -/

/-- Decimal digit character for `d < 10`. -/
def digitChar : Nat → Char
  | 0 => '0' | 1 => '1' | 2 => '2' | 3 => '3' | 4 => '4'
  | 5 => '5' | 6 => '6' | 7 => '7' | 8 => '8' | _ => '9'

/-- Numeric value of a decimal digit character, `none` otherwise. -/
def digitVal (c : Char) : Option Nat :=
  if c = '0' then some 0 else if c = '1' then some 1
  else if c = '2' then some 2 else if c = '3' then some 3
  else if c = '4' then some 4 else if c = '5' then some 5
  else if c = '6' then some 6 else if c = '7' then some 7
  else if c = '8' then some 8 else if c = '9' then some 9
  else none

/-- Decimal rendering of a natural number (most significant digit first). -/
def natToDigits (n : Nat) : List Char :=
  if _h : n < 10 then [digitChar n]
  else natToDigits (n / 10) ++ [digitChar (n % 10)]
termination_by n
decreasing_by exact Nat.div_lt_self (by omega) (by omega)

/-- Decimal rendering of an integer. -/
def intToChars (i : Int) : List Char :=
  if i < 0 then '-' :: natToDigits i.natAbs else natToDigits i.toNat

/-- JSON string escaping of one character (quote and backslash). -/
def escapeChar (c : Char) : List Char :=
  if c = '"' ∨ c = '\\' then ['\\', c] else [c]

/-- JSON string escaping. -/
def escapeString : List Char → List Char
  | [] => []
  | c :: rest => escapeChar c ++ escapeString rest

def jsonOpen : List Char := "\x7b\"MemberID\":\"".data
def jsonMid : List Char := "\",\"LastUpdate\":".data
def jsonMidTail : List Char := ",\"LastUpdate\":".data
def jsonClose : List Char := "\x7d".data

/-- `json.Marshal` of a `DirectorJSON` value (character list). -/
def serializeDirectorChars (r : DirectorJSON) : List Char :=
  jsonOpen ++ escapeString r.MemberID.data ++ jsonMid
    ++ intToChars r.LastUpdate ++ jsonClose

/-- `json.Marshal` of a `DirectorJSON` value. -/
def serializeDirector (r : DirectorJSON) : String :=
  ⟨serializeDirectorChars r⟩

/-- `json.Marshal` of a `*DirectorJSON` pointer (`nil` marshals to `null`). -/
def serializeDirectorPtr : Option DirectorJSON → String
  | none => "null"
  | some r => serializeDirector r

/-- Parse a JSON string body up to (and consuming) the closing quote,
undoing `escapeString`; returns the decoded body and the rest. -/
def parseJSONString : List Char → Option (List Char × List Char)
  | [] => none
  | c :: rest =>
    if c = '"' then some ([], rest)
    else if c = '\\' then
      match rest with
      | [] => none
      | d :: rest2 =>
        match parseJSONString rest2 with
        | some (s, r) => some (d :: s, r)
        | none => none
    else
      match parseJSONString rest with
      | some (s, r) => some (c :: s, r)
      | none => none
termination_by l => l.length
decreasing_by all_goals (simp only [List.length_cons]; omega)

/-- Accumulate decimal digits; stops at the first non-digit. -/
def parseNatAux (acc : Nat) : List Char → Nat × List Char
  | [] => (acc, [])
  | c :: rest =>
    match digitVal c with
    | some d => parseNatAux (acc * 10 + d) rest
    | none => (acc, c :: rest)

/-- Parse a nonempty run of decimal digits. -/
def parseNat : List Char → Option (Nat × List Char)
  | [] => none
  | c :: rest =>
    if (digitVal c).isSome then some (parseNatAux 0 (c :: rest)) else none

/-- Parse an optionally negated decimal integer. -/
def parseInt : List Char → Option (Int × List Char)
  | [] => none
  | c :: rest =>
    if c = '-' then
      match parseNat rest with
      | some (n, r) => some (-(n : Int), r)
      | none => none
    else
      match parseNat (c :: rest) with
      | some (n, r) => some ((n : Int), r)
      | none => none

/-- Drop `pre` from the front of `l`; `none` if it is not a prefix. -/
def dropExact : List Char → List Char → Option (List Char)
  | [], l => some l
  | _ :: _, [] => none
  | p :: ps, c :: cs => if c = p then dropExact ps cs else none

/-- `json.Unmarshal` into a `DirectorJSON` (character list input). -/
def deserializeDirectorChars (l : List Char) : Option DirectorJSON :=
  (dropExact jsonOpen l).bind fun r1 =>
    (parseJSONString r1).bind fun p =>
      (dropExact jsonMidTail p.2).bind fun r3 =>
        (parseInt r3).bind fun q =>
          if q.2 = jsonClose then some ⟨⟨p.1⟩, q.1⟩ else none

/-- `json.Unmarshal` into a `DirectorJSON`. -/
def deserializeDirector (s : String) : Option DirectorJSON :=
  deserializeDirectorChars s.data

/-! ## Serialization of `MemberJSON` (used by `generateMemberJSON`) -/

/-- JSON escaping, on `String`. -/
def escapeStr (s : String) : String := ⟨escapeString s.data⟩

/-- JSON rendering of a quoted string. -/
def jsonQuote (s : String) : String := "\"" ++ escapeStr s ++ "\""

/-- JSON rendering of a `[]string`. -/
def jsonStringArray (l : List String) : String :=
  "[" ++ String.intercalate "," (l.map jsonQuote) ++ "]"

/-- `json.Marshal` of a `MemberJSON` value (deterministic, field order). -/
def serializeMember (m : MemberJSON) : String :=
  "\x7b\"MemberID\":" ++ jsonQuote m.MemberID
    ++ ",\"Hostname\":" ++ jsonQuote m.Hostname
    ++ ",\"ListenAddress\":" ++ jsonQuote m.ListenAddress
    ++ ",\"LastUpdated\":" ++ (⟨intToChars m.LastUpdated⟩ : String)
    ++ ",\"Tags\":" ++ jsonStringArray m.Tags
    ++ ",\"Version\":" ++ jsonQuote m.Version
    ++ ",\"SemVer\":" ++ jsonQuote m.SemVer
    ++ "\x7d"

/-! ## Go helpers used by the engine -/

/-- `time.Duration.Seconds()`: `float64(d)/1e9`, in exact arithmetic. -/
def goSeconds (d : GoTime) : ℚ := (d : ℚ) / 1000000000

/-- Go `int(f)` conversion: truncation toward zero, in exact arithmetic. -/
def goTruncToInt (q : ℚ) : Int := if 0 ≤ q then ⌊q⌋ else ⌈q⌉

/-- `int(time.Duration(d).Seconds())`. -/
def goSecondsInt (d : GoTime) : Int := goTruncToInt (goSeconds d)

/-- Go `path.Base`:
last element of the path after stripping trailing slashes;
`"."` for the empty path, `"/"` for an all-slash path. -/
def pathBase (p : String) : String :=
  if p = "" then "."
  else
    let stripped := (p.data.reverse.dropWhile (· = '/')).reverse
    let lastElem := (stripped.reverse.takeWhile (· ≠ '/')).reverse
    if lastElem = [] then "/" else ⟨lastElem⟩

/-! ## Store operation log

Each embedded function returns the list of `dal` client calls it issued.
The `dal` package itself is not part of this repository slice; its calls
are recorded as opaque operations and their outcomes are supplied by
oracle parameters. -/

/-- `dal.SetOptions`. -/
structure SetOptions where
  Dir : Bool
  TTLSec : Int
  PrevExist : String
  CreateParents : Bool
  Depth : Int
deriving DecidableEq, Repr

/-- One `dal` client call issued by the cluster engine. -/
inductive StoreOp where
  /-- `DalClient.Set(key, value, opts)` -/
  | setOp (key : String) (value : String) (opts : Option SetOptions)
  /-- `DalClient.Delete(key, recursive)` -/
  | deleteOp (key : String) (recursive : Bool)
  /-- `DalClient.Refresh(key, ttl)` -/
  | refreshOp (key : String) (ttl : Int)
  /-- `DalClient.CreateDirectorState(data)` — CREATE of `cluster/director`,
  conditioned on prior nonexistence -/
  | createDirectorState (data : String)
  /-- `DalClient.UpdateDirectorState(data, prevValue, force)` — Set of
  `cluster/director`, CAS against `prevValue` unless `force` -/
  | updateDirectorState (data : String) (prevValue : String) (force : Bool)
deriving DecidableEq, Repr

/-- Is this op a write to `cluster/director`? -/
def StoreOp.isDirectorWrite : StoreOp → Bool
  | .createDirectorState _ => true
  | .updateDirectorState _ _ _ => true
  | _ => false

/-! ## Director role state machine -/

/-- `isExpired(lastUpdated)`:
`time.Now().Sub(lastUpdated).Seconds() > Duration(HeartbeatTimeout).Seconds()`. -/
def isExpired (cfg : ClusterCfg) (now lastUpdated : GoTime) : Bool :=
  goSeconds (now - lastUpdated) > goSeconds cfg.HeartbeatTimeout

instance : DecidableEq (Except String Unit) := fun a b =>
  match a, b with
  | .ok x, .ok y =>
    if h : x = y then isTrue (by rw [h])
    else isFalse (fun hh => h (Except.ok.inj hh))
  | .error x, .error y =>
    if h : x = y then isTrue (by rw [h])
    else isFalse (fun hh => h (Except.error.inj hh))
  | .ok _, .error _ => isFalse (fun hh => Except.noConfusion hh)
  | .error _, .ok _ => isFalse (fun hh => Except.noConfusion hh)

/-- Effects of one director-monitor decision: store calls issued, resulting
`DirectorState`, values published on `StateChan`, and the returned error. -/
structure TickEffects where
  ops : List StoreOp
  newDirectorState : Bool
  stateChanMsgs : List Bool
  result : Except String Unit
deriving DecidableEq, Repr

/-- `updateState(prevDirectorJSON, etcdAction)`.  `now` is `time.Now()`;
`storeErr` is the outcome of the one director-state store call. -/
def updateState (cfg : ClusterCfg) (now : GoTime)
    (prevDirectorJSON : Option DirectorJSON) (etcdAction : Nat)
    (storeErr : Option String) : List StoreOp × Except String Unit :=
  if etcdAction ≠ CREATE ∧ etcdAction ≠ UPDATE then
    ([], .error "Unrecognized etcdAction (bug?)")
  else
    let newDirectorJSON : DirectorJSON := ⟨cfg.MemberID, now⟩
    let data := serializeDirector newDirectorJSON
    if etcdAction = UPDATE then
      -- In order to compareAndSwap, we need to know the previous value
      let prevData := serializeDirectorPtr prevDirectorJSON
      ([.updateDirectorState data prevData false],
        match storeErr with
        | some e => .error ("Unable to update director state in dal: " ++ e)
        | none => .ok ())
    else
      ([.createDirectorState data],
        match storeErr with
        | some e => .error ("Unable to create director state in dal: " ++ e)
        | none => .ok ())

/-- `setDirectorState(newState)` folded into `changeState`: sets the flag
and publishes the new state on `StateChan` (under the director lock). -/
def changeState (cfg : ClusterCfg) (now : GoTime) (dirState : Bool)
    (action : Nat) (prevDirectorJSON : Option DirectorJSON) (etcdAction : Nat)
    (storeErr : Option String) : TickEffects :=
  if action = START then
    -- Only attempt to update state if we have to write to etcd (UPDATE/CREATE)
    if etcdAction ≠ NOOP then
      match updateState cfg now prevDirectorJSON etcdAction storeErr with
      | (ops, .error e) =>
        ⟨ops, dirState, [], .error ("Unable to update director state: " ++ e)⟩
      | (ops, .ok _) => ⟨ops, true, [true], .ok ()⟩
    else
      ⟨[], true, [true], .ok ()⟩
  else
    ⟨[], false, [false], .ok ()⟩

/-- `handleState(directorJSON)`: one decision of the role state machine,
taken on each DirectorMonitor tick.  `dirState` is the value `amDirector()`
reads; `obs` is the observation returned by `getState`. -/
def handleState (cfg : ClusterCfg) (now : GoTime) (dirState : Bool)
    (obs : Option DirectorJSON) (storeErr : Option String) : TickEffects :=
  match obs with
  | none =>
    -- nil directorJSON == no existing director entry
    changeState cfg now dirState START none CREATE storeErr
  | some directorJSON =>
    -- etcd says we are director, but we do not realize it
    if directorJSON.MemberID = cfg.MemberID ∧ dirState = false then
      changeState cfg now dirState START (some directorJSON) UPDATE storeErr
    -- etcd says we are not director, but we think we are
    else if directorJSON.MemberID ≠ cfg.MemberID ∧ dirState = true then
      changeState cfg now dirState STOP none NOOP storeErr
    -- happy path: current director expired, take over
    else if directorJSON.MemberID ≠ cfg.MemberID ∧ dirState = false
        ∧ isExpired cfg now directorJSON.LastUpdate = true then
      changeState cfg now dirState START (some directorJSON) UPDATE storeErr
    -- nothing happening
    else
      ⟨[], dirState, [], .ok ()⟩

/-! ## `getState`: observation of `cluster/director` -/

/-- Outcome of `DalClient.Get(DIRECTOR_KEY, nil)`. -/
inductive DalGetResult where
  /-- the error satisfies `IsKeyNotFound` -/
  | keyNotFound
  /-- any other error -/
  | failure (msg : String)
  /-- success, with the returned key/value map -/
  | success (data : List (String × String))
deriving DecidableEq, Repr

/-- Map lookup on the bulk-Get result. -/
def mapLookup (k : String) : List (String × String) → Option String
  | [] => none
  | (k2, v) :: rest => if k2 = k then some v else mapLookup k rest

/-- `getState()`: fetch and decode the current `cluster/director` record. -/
def getState (res : DalGetResult) : Except String (Option DirectorJSON) :=
  match res with
  | .keyNotFound => .ok none
  | .failure e => .error e
  | .success data =>
    -- verify contents of director
    match mapLookup DIRECTOR_KEY data with
    | none => .error "Uhh, no director entry in map? Seems like a bug"
    | some v =>
      -- attempt to unmarshal
      match deserializeDirector v with
      | none => .error "Unable to unmarshal director JSON blob"
      | some directorJSON => .ok (some directorJSON)

/-! ## DirectorHeartbeat -/

/-- `sendDirectorHeartbeat()`: the single store call it issues. -/
def sendDirectorHeartbeat (cfg : ClusterCfg) (now : GoTime) : StoreOp :=
  .updateDirectorState (serializeDirector ⟨cfg.MemberID, now⟩) "" true

/-- One DirectorHeartbeat tick: store calls issued and the (unchanged)
`DirectorState`.  A send failure is only logged (`sendErr` unused in the
returned state). -/
def directorHeartbeatTick (cfg : ClusterCfg) (now : GoTime) (dirState : Bool)
    (_sendErr : Option String) : List StoreOp × Bool :=
  if dirState = false then ([], dirState)
  else ([sendDirectorHeartbeat cfg now], dirState)

/-! ## MemberMonitor -/

/-- `client.Response.Node` fields read by the member monitor. -/
structure WatchNode where
  Key : String
  Dir : Bool
deriving DecidableEq, Repr

/-- `client.Response` fields read by the member monitor. -/
structure WatchResp where
  Action : String
  Node : WatchNode
deriving DecidableEq, Repr

/-- Handling of one watch event inside `runMemberMonitor` (while
director): `some true` when `true` is sent on `DistributeChan`. -/
def memberMonitorSignal (resp : WatchResp) : Option Bool :=
  if resp.Action = "set" then
    -- Only care about sets on the base dir, excluding the config subdir
    if resp.Node.Dir = false ∨ pathBase resp.Node.Key = "config" then none
    else some true
  else if resp.Action = "expire" then
    -- only dirs expire under /cluster/members/
    some true
  else
    none

/-! ## MemberHeartbeat -/

/-- `generateMemberJSON()` (its `json.Marshal` cannot fail). -/
def generateMemberJSON (cfg : ClusterCfg) (now : GoTime) : String :=
  serializeMember ⟨cfg.MemberID, cfg.Hostname, cfg.ListenAddress, now,
    cfg.Tags, cfg.Version, cfg.SemVer⟩

/-- Outcomes of the store calls made by `createInitialMemberStructure`,
in program order. -/
structure InitOracle where
  keyExists : Except String Bool
  deleteErr : Option String
  setDirErr : Option String
  setStatusErr : Option String
  setConfigErr : Option String
deriving Repr

/-- All-success oracle with a pre-existing member dir. -/
def okOracleExisting : InitOracle := ⟨.ok true, none, none, none, none⟩

/-- All-success oracle with no pre-existing member dir. -/
def okOracleFresh : InitOracle := ⟨.ok false, none, none, none, none⟩

/-- `createInitialMemberStructure(memberDir, heartbeatTimeoutInt)`:
store calls issued (in order) and the returned error. -/
def createInitialMemberStructure (cfg : ClusterCfg) (now : GoTime)
    (memberDir : String) (heartbeatTimeoutInt : Int) (o : InitOracle) :
    List StoreOp × Except String Unit :=
  -- Pre-emptively remove potentially pre-existing memberdir and children
  match o.keyExists with
  | .error e =>
    ([], .error ("Unable to verify pre-existence of member dir: " ++ e))
  | .ok exists? =>
    let delOps : List StoreOp :=
      if exists? then [.deleteOp memberDir true] else []
    if exists? = true ∧ o.deleteErr.isSome then
      (delOps, .error ("Unable to delete pre-existing member dir: "
        ++ o.deleteErr.getD ""))
    else
      -- create initial dir
      let dirOp : StoreOp :=
        .setOp memberDir "" (some ⟨true, heartbeatTimeoutInt, "", false, 0⟩)
      match o.setDirErr with
      | some e => (delOps ++ [dirOp], .error ("First member dir Set() failed: " ++ e))
      | none =>
        -- create initial member status
        let memberJSON := generateMemberJSON cfg now
        let statusOp : StoreOp := .setOp (memberDir ++ "/status") memberJSON none
        match o.setStatusErr with
        | some e =>
          (delOps ++ [dirOp, statusOp], .error ("Unable to create initial state: " ++ e))
        | none =>
          -- create member config dir
          let cfgOp : StoreOp :=
            .setOp (memberDir ++ "/config") "" (some ⟨true, 0, "", false, 0⟩)
          match o.setConfigErr with
          | some e =>
            (delOps ++ [dirOp, statusOp, cfgOp],
              .error ("Creating member config dir failed: " ++ e))
          | none => (delOps ++ [dirOp, statusOp, cfgOp], .ok ())

/-- `memberDir` as computed at the top of `runMemberHeartbeat`. -/
def runMemberHeartbeatMemberDir (cfg : ClusterCfg) : String :=
  "cluster/members/" ++ cfg.MemberID

/-- `heartbeatTimeoutInt := int(time.Duration(HeartbeatTimeout).Seconds())`. -/
def runMemberHeartbeatTimeoutInt (cfg : ClusterCfg) : Int :=
  goSecondsInt cfg.HeartbeatTimeout

/-- Outcome of the initialization phase of `runMemberHeartbeat`:
`log.Fatalf` aborts the process; otherwise `initFinished <- true` is sent
after `createInitialMemberStructure` returned nil. -/
inductive InitOutcome where
  /-- `log.Fatalf` — process startup aborted -/
  | fatal (msg : String)
  /-- structure created; init-complete signalled on `initFinished` -/
  | proceed (ops : List StoreOp)
deriving DecidableEq, Repr

/-- Initialization phase of `runMemberHeartbeat` (before the loop). -/
def runMemberHeartbeatInit (cfg : ClusterCfg) (now : GoTime)
    (o : InitOracle) : InitOutcome :=
  let memberDir := runMemberHeartbeatMemberDir cfg
  let heartbeatTimeoutInt := runMemberHeartbeatTimeoutInt cfg
  match createInitialMemberStructure cfg now memberDir heartbeatTimeoutInt o with
  | (_, .error e) => .fatal ("Unable to create initial member dir: " ++ e)
  | (ops, .ok _) => .proceed ops

/-- One steady-state MemberHeartbeat tick: the store calls issued.
On a status-write failure the tick returns before issuing the refresh. -/
def memberHeartbeatTick (cfg : ClusterCfg) (now : GoTime)
    (setErr : Option String) : List StoreOp :=
  let memberDir := runMemberHeartbeatMemberDir cfg
  let heartbeatTimeoutInt := runMemberHeartbeatTimeoutInt cfg
  let memberJSON := generateMemberJSON cfg now
  let statusOp : StoreOp :=
    .setOp (memberDir ++ "/status") memberJSON (some ⟨false, 0, "", true, 1⟩)
  match setErr with
  | some _ => [statusOp]
  | none => [statusOp, .refreshOp memberDir heartbeatTimeoutInt]

/-! ## `Start()` ordering (claim about the init-complete handshake)

A happens-before model of the one-shot `initFinished` channel: a trace is
any interleaving of the events below; validity encodes (a) the program
order of `runMemberHeartbeat` (the send on `initFinished` follows a nil
return of `createInitialMemberStructure`), (b) channel causality (a
receive follows a send), and (c) the program order of `Start()` (the
`go runMemberMonitor()` statement follows `<-c.initFinished`). -/

inductive ClusterEvent where
  /-- `createInitialMemberStructure` returned nil -/
  | createStructOk
  /-- `c.initFinished <- true` executed in `runMemberHeartbeat` -/
  | initSignalSend
  /-- `<-c.initFinished` completed in `Start()` -/
  | initSignalRecv
  /-- `go c.runMemberMonitor()` executed in `Start()` -/
  | memberMonitorStart
deriving DecidableEq, Repr

/-- Happens-before constraints of `Start()` / `runMemberHeartbeat`. -/
def ValidStartTrace (t : List ClusterEvent) : Prop :=
  (∀ i : Fin t.length, t.get i = .initSignalSend →
    ∃ j : Fin t.length, j.val < i.val ∧ t.get j = .createStructOk) ∧
  (∀ i : Fin t.length, t.get i = .initSignalRecv →
    ∃ j : Fin t.length, j.val < i.val ∧ t.get j = .initSignalSend) ∧
  (∀ i : Fin t.length, t.get i = .memberMonitorStart →
    ∃ j : Fin t.length, j.val < i.val ∧ t.get j = .initSignalRecv)

instance (t : List ClusterEvent) : Decidable (ValidStartTrace t) := by
  unfold ValidStartTrace; infer_instance

/-- A `Start()` schedule with the four handshake events in program order
(used to witness the ordering theorem). -/
def startTraceExample : List ClusterEvent :=
  [.createStructOk, .initSignalSend, .initSignalRecv, .memberMonitorStart]

/-! ## Round-trip lemmas for the director-record serialization -/

theorem dropExact_append (pre : List Char) : ∀ l, dropExact pre (pre ++ l) = some l := by
  induction pre with
  | nil => intro l; rfl
  | cons p ps ih => intro l; simp [dropExact, ih]

theorem parseJSONString_quote (rest : List Char) :
    parseJSONString ('"' :: rest) = some ([], rest) := by
  rw [parseJSONString.eq_def]
  simp

theorem parseJSONString_bs (d : Char) (rest : List Char) :
    parseJSONString ('\\' :: d :: rest)
      = match parseJSONString rest with
        | some (s, r) => some (d :: s, r)
        | none => none := by
  rw [parseJSONString.eq_def]
  simp

theorem parseJSONString_other (c : Char) (hq : c ≠ '"') (hb : c ≠ '\\')
    (rest : List Char) :
    parseJSONString (c :: rest)
      = match parseJSONString rest with
        | some (s, r) => some (c :: s, r)
        | none => none := by
  rw [parseJSONString.eq_def]
  simp [hq, hb]

theorem parseJSONString_escapeString (s : List Char) (rest : List Char) :
    parseJSONString (escapeString s ++ '"' :: rest) = some (s, rest) := by
  induction s with
  | nil => simpa [escapeString] using parseJSONString_quote rest
  | cons c s ih =>
    by_cases hc : c = '"' ∨ c = '\\'
    · have h1 : escapeChar c = ['\\', c] := by rw [escapeChar, if_pos hc]
      show parseJSONString ((escapeChar c ++ escapeString s) ++ '"' :: rest) = _
      rw [h1]
      simp only [List.cons_append, List.append_assoc, List.nil_append]
      rw [parseJSONString_bs, ih]
    · push_neg at hc
      have h1 : escapeChar c = [c] := by
        rw [escapeChar, if_neg (by simp [hc.1, hc.2])]
      show parseJSONString ((escapeChar c ++ escapeString s) ++ '"' :: rest) = _
      rw [h1]
      simp only [List.cons_append, List.append_assoc, List.nil_append]
      rw [parseJSONString_other c hc.1 hc.2, ih]

theorem digitVal_digitChar (d : Nat) (h : d < 10) :
    digitVal (digitChar d) = some d := by
  interval_cases d <;> decide

theorem natToDigits_head (n : Nat) :
    ∃ c cs, natToDigits n = c :: cs ∧ (digitVal c).isSome := by
  induction n using Nat.strong_induction_on with
  | _ n ih =>
    by_cases h : n < 10
    · refine ⟨digitChar n, [], ?_, ?_⟩
      · rw [natToDigits]; simp [h]
      · rw [digitVal_digitChar n h]; rfl
    · obtain ⟨c, cs, hcons, hdig⟩ := ih (n / 10) (Nat.div_lt_self (by omega) (by omega))
      refine ⟨c, cs ++ [digitChar (n % 10)], ?_, hdig⟩
      rw [natToDigits]; simp [h, hcons]

theorem parseNatAux_stop (a : Nat) (ys : List Char)
    (hy : ∀ c, ys.head? = some c → digitVal c = none) :
    parseNatAux a ys = (a, ys) := by
  cases ys with
  | nil => rfl
  | cons c r =>
    have := hy c rfl
    simp [parseNatAux, this]

theorem parseNatAux_digits (n : Nat) : ∀ acc ys,
    parseNatAux acc (natToDigits n ++ ys)
      = parseNatAux (acc * 10 ^ (natToDigits n).length + n) ys := by
  induction n using Nat.strong_induction_on with
  | _ n ih =>
    intro acc ys
    by_cases h : n < 10
    · have hd : natToDigits n = [digitChar n] := by rw [natToDigits]; simp [h]
      rw [hd]
      simp only [List.cons_append, List.nil_append, List.length_cons,
        List.length_nil, pow_one]
      simp [parseNatAux, digitVal_digitChar n h]
    · have hd : natToDigits n = natToDigits (n / 10) ++ [digitChar (n % 10)] := by
        rw [natToDigits]; simp [h]
      rw [hd, List.append_assoc]
      rw [ih (n / 10) (Nat.div_lt_self (by omega) (by omega))]
      simp only [List.singleton_append]
      have hstep : parseNatAux (acc * 10 ^ (natToDigits (n / 10)).length + n / 10)
          (digitChar (n % 10) :: ys)
          = parseNatAux ((acc * 10 ^ (natToDigits (n / 10)).length + n / 10) * 10
              + n % 10) ys := by
        simp [parseNatAux, digitVal_digitChar (n % 10) (Nat.mod_lt n (by omega))]
      rw [hstep]
      have hlen : (natToDigits (n / 10) ++ [digitChar (n % 10)]).length
          = (natToDigits (n / 10)).length + 1 := by simp
      rw [hlen]
      congr 1
      have hdm : 10 * (n / 10) + n % 10 = n := Nat.div_add_mod n 10
      rw [pow_succ]
      ring_nf
      omega

theorem parseNat_digits (n : Nat) (ys : List Char)
    (hy : ∀ c, ys.head? = some c → digitVal c = none) :
    parseNat (natToDigits n ++ ys) = some (n, ys) := by
  obtain ⟨c, cs, hcons, hdig⟩ := natToDigits_head n
  rw [hcons, List.cons_append, parseNat, if_pos hdig, ← List.cons_append, ← hcons]
  rw [parseNatAux_digits, Nat.zero_mul, Nat.zero_add, parseNatAux_stop n ys hy]

theorem parseInt_intToChars (i : Int) (ys : List Char)
    (hy : ∀ c, ys.head? = some c → digitVal c = none) :
    parseInt (intToChars i ++ ys) = some (i, ys) := by
  unfold intToChars
  by_cases h : i < 0
  · rw [if_pos h, List.cons_append, parseInt, if_pos rfl,
      parseNat_digits i.natAbs ys hy]
    have hi : -(i.natAbs : Int) = i := by omega
    show some (-(i.natAbs : Int), ys) = some (i, ys)
    rw [hi]
  · rw [if_neg h]
    obtain ⟨c, cs, hcons, hdig⟩ := natToDigits_head i.toNat
    have hcm : c ≠ '-' := by
      intro hcm
      rw [hcm] at hdig
      exact absurd hdig (by decide)
    rw [hcons, List.cons_append, parseInt, if_neg hcm, ← List.cons_append, ← hcons]
    rw [parseNat_digits i.toNat ys hy]
    have hi : (i.toNat : Int) = i := by omega
    show some ((i.toNat : Int), ys) = some (i, ys)
    rw [hi]

theorem deserialize_serializeDirectorChars (r : DirectorJSON) :
    deserializeDirectorChars (serializeDirectorChars r) = some r := by
  obtain ⟨m, t⟩ := r
  obtain ⟨mdata⟩ := m
  have hmid : jsonMid = '"' :: jsonMidTail := by decide
  have hclose : ∀ c, jsonClose.head? = some c → digitVal c = none := by decide
  unfold serializeDirectorChars deserializeDirectorChars
  rw [hmid]
  simp only [List.append_assoc, List.cons_append]
  rw [dropExact_append, Option.some_bind]
  rw [parseJSONString_escapeString, Option.some_bind]
  rw [dropExact_append, Option.some_bind]
  rw [parseInt_intToChars t jsonClose hclose, Option.some_bind]
  rfl

/-! ## State-machine evaluation lemmas -/

theorem isExpired_iff (cfg : ClusterCfg) (now t : GoTime) :
    isExpired cfg now t = true ↔ cfg.HeartbeatTimeout < now - t := by
  simp only [isExpired, goSeconds, gt_iff_lt, decide_eq_true_eq]
  rw [div_lt_div_iff_of_pos_right (by norm_num : (0 : ℚ) < 1000000000)]
  exact_mod_cast Iff.rfl

theorem changeState_start_update_eq (cfg : ClusterCfg) (now : GoTime)
    (dirState : Bool) (prev : Option DirectorJSON) (storeErr : Option String) :
    changeState cfg now dirState START prev UPDATE storeErr =
      match storeErr with
      | some e =>
        ⟨[.updateDirectorState (serializeDirector ⟨cfg.MemberID, now⟩)
            (serializeDirectorPtr prev) false], dirState, [],
          .error ("Unable to update director state: "
            ++ "Unable to update director state in dal: " ++ e)⟩
      | none =>
        ⟨[.updateDirectorState (serializeDirector ⟨cfg.MemberID, now⟩)
            (serializeDirectorPtr prev) false], true, [true], .ok ()⟩ := by
  cases storeErr <;>
    simp [changeState, updateState, START, STOP, CREATE, UPDATE, NOOP,
      ← String.append_assoc]

theorem changeState_start_create_eq (cfg : ClusterCfg) (now : GoTime)
    (dirState : Bool) (prev : Option DirectorJSON) (storeErr : Option String) :
    changeState cfg now dirState START prev CREATE storeErr =
      match storeErr with
      | some e =>
        ⟨[.createDirectorState (serializeDirector ⟨cfg.MemberID, now⟩)],
          dirState, [],
          .error ("Unable to update director state: "
            ++ "Unable to create director state in dal: " ++ e)⟩
      | none =>
        ⟨[.createDirectorState (serializeDirector ⟨cfg.MemberID, now⟩)],
          true, [true], .ok ()⟩ := by
  cases storeErr <;>
    simp [changeState, updateState, START, STOP, CREATE, UPDATE, NOOP,
      ← String.append_assoc]

theorem changeState_stop_eq (cfg : ClusterCfg) (now : GoTime) (dirState : Bool)
    (prev : Option DirectorJSON) (etcdAction : Nat) (storeErr : Option String) :
    changeState cfg now dirState STOP prev etcdAction storeErr
      = ⟨[], false, [false], .ok ()⟩ := by
  simp [changeState, START, STOP]

theorem handleState_absent (cfg : ClusterCfg) (now : GoTime) (dirState : Bool)
    (storeErr : Option String) :
    handleState cfg now dirState none storeErr
      = changeState cfg now dirState START none CREATE storeErr := rfl

theorem handleState_adopt (cfg : ClusterCfg) (now : GoTime) (d : DirectorJSON)
    (storeErr : Option String) (h : d.MemberID = cfg.MemberID) :
    handleState cfg now false (some d) storeErr
      = changeState cfg now false START (some d) UPDATE storeErr := by
  simp [handleState, h]

theorem handleState_steady (cfg : ClusterCfg) (now : GoTime) (d : DirectorJSON)
    (storeErr : Option String) (h : d.MemberID = cfg.MemberID) :
    handleState cfg now true (some d) storeErr = ⟨[], true, [], .ok ()⟩ := by
  simp [handleState, h]

theorem handleState_demote (cfg : ClusterCfg) (now : GoTime) (d : DirectorJSON)
    (storeErr : Option String) (h : d.MemberID ≠ cfg.MemberID) :
    handleState cfg now true (some d) storeErr
      = changeState cfg now true STOP none NOOP storeErr := by
  simp [handleState, h]

theorem handleState_takeover (cfg : ClusterCfg) (now : GoTime) (d : DirectorJSON)
    (storeErr : Option String) (h : d.MemberID ≠ cfg.MemberID)
    (hexp : isExpired cfg now d.LastUpdate = true) :
    handleState cfg now false (some d) storeErr
      = changeState cfg now false START (some d) UPDATE storeErr := by
  simp [handleState, h, hexp]

theorem handleState_wait (cfg : ClusterCfg) (now : GoTime) (d : DirectorJSON)
    (storeErr : Option String) (h : d.MemberID ≠ cfg.MemberID)
    (hexp : isExpired cfg now d.LastUpdate = false) :
    handleState cfg now false (some d) storeErr = ⟨[], false, [], .ok ()⟩ := by
  simp [handleState, h, hexp]

/-! ## The claims -/

/-- C1: on each DirectorMonitor tick, `handleState` issues a write to
`cluster/director` in exactly three cases — absent observation (START via
CREATE), observed record names SELF with DirectorState false (START via
UPDATE, CAS against the observed value), observed record names another
member with DirectorState false and NOW − LastUpdate > HeartbeatTimeout
(START via UPDATE) — and in every other case issues no director write. -/
theorem claim_C1_handleState_write_cases (cfg : ClusterCfg) (now : GoTime)
    (dirState : Bool) (obs : Option DirectorJSON) (storeErr : Option String) :
    (obs = none →
      (handleState cfg now dirState obs storeErr).ops
        = [.createDirectorState (serializeDirector ⟨cfg.MemberID, now⟩)]) ∧
    (∀ d, obs = some d → d.MemberID = cfg.MemberID → dirState = false →
      (handleState cfg now dirState obs storeErr).ops
        = [.updateDirectorState (serializeDirector ⟨cfg.MemberID, now⟩)
            (serializeDirector d) false]) ∧
    (∀ d, obs = some d → d.MemberID ≠ cfg.MemberID → dirState = false →
      cfg.HeartbeatTimeout < now - d.LastUpdate →
      (handleState cfg now dirState obs storeErr).ops
        = [.updateDirectorState (serializeDirector ⟨cfg.MemberID, now⟩)
            (serializeDirector d) false]) ∧
    ((handleState cfg now dirState obs storeErr).ops.any
        StoreOp.isDirectorWrite = true ↔
      obs = none ∨ ∃ d, obs = some d ∧
        ((d.MemberID = cfg.MemberID ∧ dirState = false) ∨
         (d.MemberID ≠ cfg.MemberID ∧ dirState = false ∧
           cfg.HeartbeatTimeout < now - d.LastUpdate))) := by
  refine ⟨?_, ?_, ?_, ?_⟩
  · rintro rfl
    rw [handleState_absent, changeState_start_create_eq]
    cases storeErr <;> rfl
  · rintro d rfl hm rfl
    rw [handleState_adopt cfg now d storeErr hm, changeState_start_update_eq]
    cases storeErr <;> simp [serializeDirectorPtr]
  · rintro d rfl hm rfl hexp
    rw [handleState_takeover cfg now d storeErr hm
      ((isExpired_iff cfg now d.LastUpdate).mpr hexp), changeState_start_update_eq]
    cases storeErr <;> simp [serializeDirectorPtr]
  · cases obs with
    | none =>
      rw [handleState_absent, changeState_start_create_eq]
      cases storeErr <;> simp [StoreOp.isDirectorWrite]
    | some d =>
      by_cases hm : d.MemberID = cfg.MemberID
      · cases dirState
        · rw [handleState_adopt cfg now d storeErr hm, changeState_start_update_eq]
          cases storeErr <;> simp [StoreOp.isDirectorWrite, hm]
        · rw [handleState_steady cfg now d storeErr hm]
          simp [hm]
      · cases dirState
        · by_cases hexp : cfg.HeartbeatTimeout < now - d.LastUpdate
          · rw [handleState_takeover cfg now d storeErr hm
              ((isExpired_iff cfg now d.LastUpdate).mpr hexp),
              changeState_start_update_eq]
            cases storeErr <;> simp [StoreOp.isDirectorWrite, hm, hexp]
          · have hex : isExpired cfg now d.LastUpdate = false := by
              rw [Bool.eq_false_iff]
              intro hh
              exact hexp ((isExpired_iff cfg now d.LastUpdate).mp hh)
            rw [handleState_wait cfg now d storeErr hm hex]
            simp [hm, hexp]
        · rw [handleState_demote cfg now d storeErr hm, changeState_stop_eq]
          simp [hm]

/-- A sample configuration used by the witnesses: MemberID "A",
HeartbeatInterval 1s, HeartbeatTimeout 5s. -/
def cfgEx : ClusterCfg :=
  ⟨"A", "host", "0.0.0.0:8080", [], "v", "s", 1000000000, 5000000000⟩

/-- C1 witness: absent observation at the sample configuration. -/
theorem claim_C1_witness :
    (handleState cfgEx 7 false none none).ops
      = [.createDirectorState (serializeDirector ⟨"A", 7⟩)] :=
  (claim_C1_handleState_write_cases cfgEx 7 false none none).1 rfl

/-- C2: when the observed record names another member while DirectorState
is true, the tick is the STOP action — DirectorState becomes false, `false`
is published on `StateChan`, no store operation is issued, no error. -/
theorem claim_C2_split_brain_stop (cfg : ClusterCfg) (now : GoTime)
    (d : DirectorJSON) (storeErr : Option String)
    (h : d.MemberID ≠ cfg.MemberID) :
    handleState cfg now true (some d) storeErr
      = ⟨[], false, [false], .ok ()⟩ := by
  rw [handleState_demote cfg now d storeErr h, changeState_stop_eq]

/-- C2 witness: node A sees the store naming B while believing itself
director. -/
theorem claim_C2_witness :
    handleState cfgEx 0 true (some ⟨"B", 0⟩) none
      = ⟨[], false, [false], .ok ()⟩ :=
  claim_C2_split_brain_stop cfgEx 0 ⟨"B", 0⟩ none (by decide)

/-- C3 counterexample: when the bulk Get succeeds but the returned map has
no entry for the director key, `getState` returns an error — not the
absent observation `(nil, nil)` the claim asserts. -/
theorem claim_C3_missing_entry_cex :
    getState (DalGetResult.success [])
        = .error "Uhh, no director entry in map? Seems like a bug"
      ∧ getState (DalGetResult.success []) ≠ .ok none :=
  ⟨rfl, fun h => Except.noConfusion h⟩

/-- C3 (amended): a key-not-found error on the director observation is
normalized to the absent observation (nil record, nil error); but when the
bulk Get succeeds and the returned map has no entry for the director key,
`getState` returns an error instead of the absent observation. -/
theorem claim_C3_getState_normalization_amended :
    getState DalGetResult.keyNotFound = .ok none ∧
    (∀ data, mapLookup DIRECTOR_KEY data = none →
      getState (DalGetResult.success data)
        = .error "Uhh, no director entry in map? Seems like a bug") := by
  constructor
  · rfl
  · intro data hd
    simp [getState, hd]

/-- C3 witness: a successful Get whose map holds only an unrelated key. -/
theorem claim_C3_witness :
    getState (DalGetResult.success [("other", "x")])
      = .error "Uhh, no director entry in map? Seems like a bug" :=
  claim_C3_getState_normalization_amended.2 [("other", "x")] (by decide)

/-- C4: for a watch event while director — on `set`, `true` is published
on `DistributeChan` iff the changed node is a directory and the basename
of its key is not `config`; on `expire`, `true` is always published; any
other action publishes nothing. -/
theorem claim_C4_memberMonitor_signal (resp : WatchResp) :
    (resp.Action = "set" →
      (memberMonitorSignal resp = some true ↔
        resp.Node.Dir = true ∧ pathBase resp.Node.Key ≠ "config")) ∧
    (resp.Action = "expire" → memberMonitorSignal resp = some true) ∧
    (resp.Action ≠ "set" → resp.Action ≠ "expire" →
      memberMonitorSignal resp = none) := by
  refine ⟨?_, ?_, ?_⟩
  · intro h
    by_cases hd : resp.Node.Dir = true <;>
      by_cases hb : pathBase resp.Node.Key = "config" <;>
        simp [memberMonitorSignal, h, hd, hb]
  · intro h
    simp [memberMonitorSignal, h]
  · intro h1 h2
    simp [memberMonitorSignal, h1, h2]

/-- C4 witness: a member-directory expiry event publishes `true`. -/
theorem claim_C4_witness :
    memberMonitorSignal ⟨"expire", ⟨"cluster/members/A", true⟩⟩ = some true :=
  (claim_C4_memberMonitor_signal ⟨"expire", ⟨"cluster/members/A", true⟩⟩).2.1 rfl

/-- C5: during START with etcd action CREATE or UPDATE, if the store write
fails `changeState` returns an error with DirectorState unchanged and
nothing published on `StateChan`; on write success it sets DirectorState
true and publishes `true`; with etcd action NOOP it does so immediately
with no store operation. -/
theorem claim_C5_changeState_error_handling (cfg : ClusterCfg) (now : GoTime)
    (dirState : Bool) (prev : Option DirectorJSON) (etcdAction : Nat)
    (storeErr : Option String) :
    ((etcdAction = CREATE ∨ etcdAction = UPDATE) →
      (∀ e, storeErr = some e →
        (changeState cfg now dirState START prev etcdAction storeErr).newDirectorState
            = dirState ∧
        (changeState cfg now dirState START prev etcdAction storeErr).stateChanMsgs
            = [] ∧
        ∃ msg,
          (changeState cfg now dirState START prev etcdAction storeErr).result
            = .error msg) ∧
      (storeErr = none →
        (changeState cfg now dirState START prev etcdAction storeErr).newDirectorState
            = true ∧
        (changeState cfg now dirState START prev etcdAction storeErr).stateChanMsgs
            = [true] ∧
        (changeState cfg now dirState START prev etcdAction storeErr).result
            = .ok ())) ∧
    changeState cfg now dirState START prev NOOP storeErr
      = ⟨[], true, [true], .ok ()⟩ := by
  constructor
  · rintro (rfl | rfl)
    · refine ⟨?_, ?_⟩
      · rintro e rfl
        rw [changeState_start_create_eq]
        exact ⟨rfl, rfl, _, rfl⟩
      · rintro rfl
        rw [changeState_start_create_eq]
        exact ⟨rfl, rfl, rfl⟩
    · refine ⟨?_, ?_⟩
      · rintro e rfl
        rw [changeState_start_update_eq]
        exact ⟨rfl, rfl, _, rfl⟩
      · rintro rfl
        rw [changeState_start_update_eq]
        exact ⟨rfl, rfl, rfl⟩
  · simp [changeState, START, NOOP]

/-- C5 witness: a failed CREATE at the sample configuration leaves the
role flag untouched and publishes nothing. -/
theorem claim_C5_witness :
    (changeState cfgEx 0 false START none CREATE (some "boom")).newDirectorState
        = false ∧
    (changeState cfgEx 0 false START none CREATE (some "boom")).stateChanMsgs
        = [] ∧
    ∃ msg,
      (changeState cfgEx 0 false START none CREATE (some "boom")).result
        = .error msg :=
  ((claim_C5_changeState_error_handling cfgEx 0 false none CREATE
    (some "boom")).1 (Or.inl rfl)).1 "boom" rfl

/-- C6: in every schedule satisfying the happens-before constraints of
`Start()` and `runMemberHeartbeat` (send on `initFinished` only after
`createInitialMemberStructure` succeeded; receive after send;
`go runMemberMonitor()` after the receive), the launch of MemberMonitor is
strictly preceded by the successful creation of the member structure. -/
theorem claim_C6_start_ordering (t : List ClusterEvent)
    (hv : ValidStartTrace t) :
    ∀ i : Fin t.length, t.get i = .memberMonitorStart →
      ∃ j : Fin t.length, j.val < i.val ∧ t.get j = .createStructOk := by
  obtain ⟨h1, h2, h3⟩ := hv
  intro i hi
  obtain ⟨j, hj, hjr⟩ := h3 i hi
  obtain ⟨k, hk, hks⟩ := h2 j hjr
  obtain ⟨l, hl, hlo⟩ := h1 k hks
  exact ⟨l, by omega, hlo⟩

/-- C6 witness: the program-order schedule of the four handshake events. -/
theorem claim_C6_witness :
    ∃ j : Fin startTraceExample.length,
      j.val < 3 ∧ startTraceExample.get j = .createStructOk :=
  claim_C6_start_ordering startTraceExample (by decide) ⟨3, by decide⟩ rfl

/-- C7: MemberHeartbeat initialization issues, in order: a recursive
delete of the pre-existing member dir (only if it exists), the member-dir
create with TTL `heartbeatTimeoutInt`, the initial MemberRecord write to
`.../status`, and the `.../config` dir create with no TTL; any failure in
the sequence makes `runMemberHeartbeat` abort startup (`log.Fatalf`). -/
theorem claim_C7_init_sequence (cfg : ClusterCfg) (now : GoTime)
    (o : InitOracle) :
    (runMemberHeartbeatInit cfg now okOracleExisting = .proceed
      [.deleteOp (runMemberHeartbeatMemberDir cfg) true,
       .setOp (runMemberHeartbeatMemberDir cfg) ""
         (some ⟨true, runMemberHeartbeatTimeoutInt cfg, "", false, 0⟩),
       .setOp (runMemberHeartbeatMemberDir cfg ++ "/status")
         (generateMemberJSON cfg now) none,
       .setOp (runMemberHeartbeatMemberDir cfg ++ "/config") ""
         (some ⟨true, 0, "", false, 0⟩)]) ∧
    (runMemberHeartbeatInit cfg now okOracleFresh = .proceed
      [.setOp (runMemberHeartbeatMemberDir cfg) ""
         (some ⟨true, runMemberHeartbeatTimeoutInt cfg, "", false, 0⟩),
       .setOp (runMemberHeartbeatMemberDir cfg ++ "/status")
         (generateMemberJSON cfg now) none,
       .setOp (runMemberHeartbeatMemberDir cfg ++ "/config") ""
         (some ⟨true, 0, "", false, 0⟩)]) ∧
    (∀ ops e,
      createInitialMemberStructure cfg now (runMemberHeartbeatMemberDir cfg)
          (runMemberHeartbeatTimeoutInt cfg) o = (ops, .error e) →
      runMemberHeartbeatInit cfg now o
        = .fatal ("Unable to create initial member dir: " ++ e)) := by
  refine ⟨?_, ?_, ?_⟩
  · simp [runMemberHeartbeatInit, createInitialMemberStructure, okOracleExisting]
  · simp [runMemberHeartbeatInit, createInitialMemberStructure, okOracleFresh]
  · intro ops e h
    simp [runMemberHeartbeatInit, h]

/-- C7 witness: a failing existence check aborts startup. -/
theorem claim_C7_witness :
    runMemberHeartbeatInit cfgEx 0 ⟨.error "down", none, none, none, none⟩
      = .fatal ("Unable to create initial member dir: "
          ++ "Unable to verify pre-existence of member dir: down") :=
  (claim_C7_init_sequence cfgEx 0 ⟨.error "down", none, none, none, none⟩).2.2
    [] "Unable to verify pre-existence of member dir: down" rfl

/-- C8: a DirectorHeartbeat tick with DirectorState false issues no store
operation; with DirectorState true it issues exactly one director-state
write carrying the fresh record {SELF, NOW} with the force/refresh flag;
in all cases (send failure included) DirectorState is unchanged. -/
theorem claim_C8_directorHeartbeat_tick (cfg : ClusterCfg) (now : GoTime)
    (dirState : Bool) (sendErr : Option String) :
    (dirState = false → directorHeartbeatTick cfg now dirState sendErr
      = ([], false)) ∧
    (dirState = true → directorHeartbeatTick cfg now dirState sendErr
      = ([.updateDirectorState (serializeDirector ⟨cfg.MemberID, now⟩) "" true],
          true)) ∧
    (directorHeartbeatTick cfg now dirState sendErr).2 = dirState := by
  refine ⟨?_, ?_, ?_⟩
  · rintro rfl; rfl
  · rintro rfl; rfl
  · cases dirState <;> rfl

/-- C8 witness: a director tick at the sample configuration. -/
theorem claim_C8_witness :
    directorHeartbeatTick cfgEx 3 true none
      = ([.updateDirectorState (serializeDirector ⟨"A", 3⟩) "" true], true) :=
  (claim_C8_directorHeartbeat_tick cfgEx 3 true none).2.1 rfl

/-- C9: serializing a DirectorRecord and deserializing the resulting bytes
yields an equal record, and the serializer is deterministic — equal
records serialize to byte-identical payloads. -/
theorem claim_C9_director_roundtrip (r₁ r₂ : DirectorJSON) :
    deserializeDirector (serializeDirector r₁) = some r₁ ∧
    (r₁ = r₂ → serializeDirector r₁ = serializeDirector r₂) := by
  constructor
  · exact deserialize_serializeDirectorChars r₁
  · intro h; rw [h]

/-- C9 witness: round trip at a concrete record. -/
theorem claim_C9_witness :
    deserializeDirector (serializeDirector ⟨"node-a", 1234⟩)
      = some ⟨"node-a", 1234⟩ :=
  (claim_C9_director_roundtrip ⟨"node-a", 1234⟩ ⟨"node-a", 1234⟩).1

/-- C10: the member-dir TTL is the truncation of HeartbeatTimeout to whole
seconds — `⌊HeartbeatTimeout / 1s⌋` for a nonnegative duration, hence `0`
for any sub-second timeout — and that same value is the TTL of the
member-dir create and of every steady-state refresh. -/
theorem claim_C10_ttl_truncation (cfg : ClusterCfg) (now : GoTime)
    (h : 0 ≤ cfg.HeartbeatTimeout) :
    runMemberHeartbeatTimeoutInt cfg
        = ⌊(cfg.HeartbeatTimeout : ℚ) / 1000000000⌋ ∧
    (cfg.HeartbeatTimeout < 1000000000 → runMemberHeartbeatTimeoutInt cfg = 0) ∧
    StoreOp.setOp (runMemberHeartbeatMemberDir cfg) ""
        (some ⟨true, runMemberHeartbeatTimeoutInt cfg, "", false, 0⟩)
      ∈ (createInitialMemberStructure cfg now (runMemberHeartbeatMemberDir cfg)
          (runMemberHeartbeatTimeoutInt cfg) okOracleFresh).1 ∧
    StoreOp.refreshOp (runMemberHeartbeatMemberDir cfg)
        (runMemberHeartbeatTimeoutInt cfg)
      ∈ memberHeartbeatTick cfg now none := by
  have h1 : runMemberHeartbeatTimeoutInt cfg
      = ⌊(cfg.HeartbeatTimeout : ℚ) / 1000000000⌋ := by
    unfold runMemberHeartbeatTimeoutInt goSecondsInt goTruncToInt goSeconds
    rw [if_pos]
    exact div_nonneg (by exact_mod_cast h) (by norm_num)
  refine ⟨h1, ?_, ?_, ?_⟩
  · intro hlt
    rw [h1, Int.floor_eq_zero_iff]
    refine Set.mem_Ico.mpr ⟨div_nonneg (by exact_mod_cast h) (by norm_num), ?_⟩
    rw [div_lt_one (by norm_num : (0 : ℚ) < 1000000000)]
    exact_mod_cast hlt
  · simp [createInitialMemberStructure, okOracleFresh]
  · simp [memberHeartbeatTick]

/-- C10 witness: a 500ms HeartbeatTimeout yields TTL 0. -/
theorem claim_C10_witness :
    runMemberHeartbeatTimeoutInt
      ⟨"A", "host", "0.0.0.0:8080", [], "v", "s", 1000000000, 500000000⟩ = 0 :=
  (claim_C10_ttl_truncation
    ⟨"A", "host", "0.0.0.0:8080", [], "v", "s", 1000000000, 500000000⟩ 0
    (by norm_num)).2.1 (by norm_num)

end NineVolt
